import Mathlib

/-!
Shallow embedding of the access-control and membership model of the
project/task-management backend (src/src of the repository).

The authoritative code is `src/src/repository.py` (Entity Store layer) and
`src/src/main.py` (Resource API endpoints).  `src/src/models.py` in the tree
is the superseded Project-owns-Task schema variant; `repository.py` and
`main.py` are written against the Board-mediated variant (Project has no
direct owner foreign key; Boards sit between Projects and Tasks).  The ORM
class `Board` and the pydantic schemas `ProjectUpdate`, `BoardCreate` and
`BoardUpdate` referenced by that code are missing from src, so their field
shapes are modelled from the spec and from how `repository.py` constructs
and updates them; everything behavioural (queries, checks, branches) is
translated directly from the python source.

Databases are modelled as in-memory lists of rows with explicit
autoincrement counters; a pydantic payload with `exclude_unset=True`
semantics is modelled as a record of `Option` fields where `none` means the
field was not supplied.
-/

namespace TNP

/-- models.py MemberRole enum. -/
inductive MemberRole where
  | OWNER
  | MEMBER
  | NOT_ACCESSABLE_MEMBER
deriving DecidableEq, Repr

/-- models.py ProjectStatus enum. -/
inductive ProjectStatus where
  | ACTIVE
  | COMPLETED
  | PAUSED
deriving DecidableEq, Repr

/-- models.py TaskStatus enum. -/
inductive TaskStatus where
  | TODO
  | IN_PROGRESS
  | DONE
  | ARCHIVED
deriving DecidableEq, Repr

/-- models.py TaskPriority enum. -/
inductive TaskPriority where
  | LOW
  | MEDIUM
  | HIGH
  | CRITICAL
deriving DecidableEq, Repr

/-- models.py User row (identity columns; timestamps are not modelled). -/
structure User where
  id : Nat
  username : String
  email : String
  password_hash : String
deriving DecidableEq, Repr

/-- Project row of the Board-mediated schema variant.
Modelled from the spec: ownership is expressed through membership role, not
a direct foreign key, in the access-control-bearing variant of the model;
the payload columns name/description/status are those of
`schemas.ProjectBase`. -/
structure Project where
  id : Nat
  name : String
  description : Option String
  status : ProjectStatus
deriving DecidableEq, Repr

/-- models.py ProjectMember row: composite primary key (project_id, user_id),
a role and a joined timestamp (not modelled). -/
structure ProjectMember where
  project_id : Nat
  user_id : Nat
  role : MemberRole
deriving DecidableEq, Repr

/-- Board row.  Modelled from the spec: the ORM class is missing from src;
its columns id, project_id, title, position are exactly those that
`Repository.create_board` constructs. -/
structure Board where
  id : Nat
  project_id : Nat
  title : String
  position : Int
deriving DecidableEq, Repr

/-- Task row of the Board-mediated variant, with exactly the columns the
`Repository.create_task` constructor sets (plus description, which that
constructor leaves NULL).  Deadlines are modelled as abstract instants. -/
structure Task where
  id : Nat
  board_id : Nat
  title : String
  description : Option String
  status : TaskStatus
  priority : TaskPriority
  position : Int
  deadline : Option Nat
  assignee_id : Option Nat
deriving DecidableEq, Repr

/-- The relational store: one list of rows per table plus autoincrement
counters for the integer primary keys. -/
structure DB where
  users : List User
  projects : List Project
  members : List ProjectMember
  boards : List Board
  tasks : List Task
  nextUserId : Nat
  nextProjectId : Nat
  nextBoardId : Nat
  nextTaskId : Nat
deriving DecidableEq, Repr

/-- schemas.UserCreate. -/
structure UserCreate where
  username : String
  email : String
  password : String
deriving DecidableEq, Repr

/-- schemas.UserRead: the response schema for users, which has no
password-hash field. -/
structure UserRead where
  id : Nat
  username : String
  email : String
deriving DecidableEq, Repr

/-- schemas.ProjectCreate (= ProjectBase): name, optional description,
status defaulting to ACTIVE. -/
structure ProjectCreate where
  name : String
  description : Option String
  status : ProjectStatus
deriving DecidableEq, Repr

/-- Partial-update payload for a project.  Modelled from the spec: the
schema is missing from src; only fields explicitly supplied (outer `some`)
are changed.  An explicitly supplied null description is `some none`. -/
structure ProjectUpdate where
  name : Option String
  description : Option (Option String)
  status : Option ProjectStatus
deriving DecidableEq, Repr

/-- `model_dump(exclude_unset=True)` of a ProjectUpdate is empty iff no
field was supplied. -/
def ProjectUpdate.isEmpty (u : ProjectUpdate) : Bool :=
  u.name.isNone && u.description.isNone && u.status.isNone

/-- schemas.ProjectMemberCreate: user_id plus role. -/
structure ProjectMemberCreate where
  user_id : Nat
  role : MemberRole
deriving DecidableEq, Repr

/-- Board creation payload (title and ordering position).  Modelled from the
spec: the schema is missing from src; the fields are the ones
`Repository.create_board` reads from it. -/
structure BoardCreate where
  title : String
  position : Int
deriving DecidableEq, Repr

/-- Partial-update payload for a board.  Modelled from the spec: the schema
is missing from src; `none` means the field was not supplied. -/
structure BoardUpdate where
  title : Option String
  position : Option Int
deriving DecidableEq, Repr

def BoardUpdate.isEmpty (u : BoardUpdate) : Bool :=
  u.title.isNone && u.position.isNone

/-- schemas.TaskCreate. -/
structure TaskCreate where
  title : String
  description : Option String
  status : TaskStatus
  priority : TaskPriority
  position : Int
  deadline : Option Nat
  assignee_id : Option Nat
deriving DecidableEq, Repr

/-- schemas.TaskUpdate with `exclude_unset` semantics: outer `none` means
the field was not supplied; for nullable columns an explicitly supplied
null is `some none`. -/
structure TaskUpdate where
  title : Option String
  description : Option (Option String)
  status : Option TaskStatus
  priority : Option TaskPriority
  position : Option Int
  deadline : Option (Option Nat)
  assignee_id : Option (Option Nat)
deriving DecidableEq, Repr

def TaskUpdate.isEmpty (u : TaskUpdate) : Bool :=
  u.title.isNone && u.description.isNone && u.status.isNone &&
  u.priority.isNone && u.position.isNone && u.deadline.isNone &&
  u.assignee_id.isNone

/-- The empty task-update payload (no field supplied). -/
def TaskUpdate.empty : TaskUpdate :=
  ⟨none, none, none, none, none, none, none⟩

def ProjectUpdate.empty : ProjectUpdate := ⟨none, none, none⟩

def BoardUpdate.empty : BoardUpdate := ⟨none, none⟩

/-- utils.hash_password: bcrypt is an external collaborator in the spec; it
is modelled as an abstract tagging function — only the fact that responses
never carry it matters to the claims. -/
def hash_password (plain : String) : String :=
  String.append "bcrypt-hash:" plain

/-- `update(X).values(**update_data)` applied to one project row. -/
def applyProjectUpdate (u : ProjectUpdate) (p : Project) : Project :=
  { p with
    name := u.name.getD p.name
    description := u.description.getD p.description
    status := u.status.getD p.status }

/-- `update(Board).values(**update_data)` applied to one board row. -/
def applyBoardUpdate (u : BoardUpdate) (b : Board) : Board :=
  { b with
    title := u.title.getD b.title
    position := u.position.getD b.position }

/-- `update(Task).values(**update_data)` applied to one task row. -/
def applyTaskUpdate (u : TaskUpdate) (t : Task) : Task :=
  { t with
    title := u.title.getD t.title
    description := u.description.getD t.description
    status := u.status.getD t.status
    priority := u.priority.getD t.priority
    position := u.position.getD t.position
    deadline := u.deadline.getD t.deadline
    assignee_id := u.assignee_id.getD t.assignee_id }

/-- The member rows of one project (`project.members` relationship /
`select(ProjectMember).where(project_id == ...)`). -/
def projectMembers (db : DB) (pid : Nat) : List ProjectMember :=
  db.members.filter (fun m => decide (m.project_id = pid))

/-- `select(Project).where(Project.id == project_id)` —
Repository.get_project_with_details restricted to the row itself (the eager
loads are reconstructed from the store where needed). -/
def getProject (db : DB) (pid : Nat) : Option Project :=
  db.projects.find? (fun p => decide (p.id = pid))

/-- Repository.create_user: inserts the row with the hashed password; the
database rejects the insert (IntegrityError on commit) when the unique
constraints on username or email are violated, in which case no row is
written. -/
def Repository.create_user (db : DB) (data : UserCreate) : DB × Option User :=
  if db.users.any (fun u => decide (u.username = data.username) || decide (u.email = data.email)) then
    (db, none)
  else
    let nu : User := ⟨db.nextUserId, data.username, data.email, hash_password data.password⟩
    ({ db with users := db.users ++ [nu], nextUserId := db.nextUserId + 1 }, some nu)

/-- Repository.get_user_by_id. -/
def Repository.get_user_by_id (db : DB) (uid : Nat) : Option User :=
  db.users.find? (fun u => decide (u.id = uid))

/-- Repository.get_user_by_email. -/
def Repository.get_user_by_email (db : DB) (email : String) : Option User :=
  db.users.find? (fun u => decide (u.email = email))

/-- Repository.create_project with the `session.begin()` transaction made
explicit: each of the two writes (the Project insert flushed first, then the
owner ProjectMember insert) may fail, and an exception inside the
transaction block rolls the whole transaction back, so unless both writes
succeed the store is unchanged and no project is returned. -/
def Repository.create_project_tx (db : DB) (creator_id : Nat) (data : ProjectCreate)
    (projectWriteOk memberWriteOk : Bool) : DB × Option Project :=
  if projectWriteOk && memberWriteOk then
    let p : Project := ⟨db.nextProjectId, data.name, data.description, data.status⟩
    let om : ProjectMember := ⟨p.id, creator_id, MemberRole.OWNER⟩
    ({ db with
        projects := db.projects ++ [p]
        members := db.members ++ [om]
        nextProjectId := db.nextProjectId + 1 }, some p)
  else (db, none)

/-- Repository.create_project on the success path (both writes commit). -/
def Repository.create_project (db : DB) (creator_id : Nat) (data : ProjectCreate) :
    DB × Option Project :=
  Repository.create_project_tx db creator_id data true true

/-- Repository.update_project: with an empty field set it returns None
without touching the store; otherwise it updates every project row matching
the id and returns the first updated row (None when no row matched). -/
def Repository.update_project (db : DB) (pid : Nat) (data : ProjectUpdate) :
    DB × Option Project :=
  if data.isEmpty then (db, none)
  else
    let projects := db.projects.map
      (fun p => if decide (p.id = pid) then applyProjectUpdate data p else p)
    ({ db with projects := projects },
     projects.find? (fun p => decide (p.id = pid)))

/-- Repository.get_project_members. -/
def Repository.get_project_members (db : DB) (pid : Nat) : List ProjectMember :=
  projectMembers db pid

/-- Repository.add_project_member: inserts the membership row; the composite
primary key (project_id, user_id) makes the commit fail (IntegrityError,
nothing written) when a membership for that pair already exists. -/
def Repository.add_project_member (db : DB) (pid : Nat) (data : ProjectMemberCreate) :
    DB × Option ProjectMember :=
  if db.members.any (fun m => decide (m.project_id = pid) && decide (m.user_id = data.user_id)) then
    (db, none)
  else
    let nm : ProjectMember := ⟨pid, data.user_id, data.role⟩
    ({ db with members := db.members ++ [nm] }, some nm)

/-- Repository.remove_project_member: deletes the matching rows and reports
whether any row was actually removed (rowcount > 0). -/
def Repository.remove_project_member (db : DB) (pid uid : Nat) : DB × Bool :=
  let remaining := db.members.filter
    (fun m => !(decide (m.project_id = pid) && decide (m.user_id = uid)))
  ({ db with members := remaining }, decide (remaining.length < db.members.length))

/-- Repository.get_board_by_id. -/
def Repository.get_board_by_id (db : DB) (bid : Nat) : Option Board :=
  db.boards.find? (fun b => decide (b.id = bid))

/-- Repository.create_board: returns None (writing nothing) when a board
with the same title already exists under the same project, else inserts the
board and re-reads it by its fresh id. -/
def Repository.create_board (db : DB) (pid : Nat) (data : BoardCreate) :
    DB × Option Board :=
  match db.boards.find? (fun b => decide (b.project_id = pid) && decide (b.title = data.title)) with
  | some _ => (db, none)
  | none =>
    let nb : Board := ⟨db.nextBoardId, pid, data.title, data.position⟩
    let db' : DB := { db with boards := db.boards ++ [nb], nextBoardId := db.nextBoardId + 1 }
    (db', Repository.get_board_by_id db' nb.id)

/-- Repository.update_board: applies the update only when the field set is
nonempty, then re-reads the board by id and returns it. -/
def Repository.update_board (db : DB) (bid : Nat) (data : BoardUpdate) :
    DB × Option Board :=
  let boards := db.boards.map
    (fun b => if decide (b.id = bid) then applyBoardUpdate data b else b)
  let db' : DB := if data.isEmpty then db else { db with boards := boards }
  (db', Repository.get_board_by_id db' bid)

/-- Repository.delete_board (the spec's cascade to the board's tasks
included), reporting whether a row was removed. -/
def Repository.delete_board (db : DB) (bid : Nat) : DB × Bool :=
  let remaining := db.boards.filter (fun b => !(decide (b.id = bid)))
  let tasks := db.tasks.filter (fun t => !(decide (t.board_id = bid)))
  ({ db with boards := remaining, tasks := tasks },
   decide (remaining.length < db.boards.length))

/-- Repository.get_task_by_id. -/
def Repository.get_task_by_id (db : DB) (tid : Nat) : Option Task :=
  db.tasks.find? (fun t => decide (t.id = tid))

/-- Repository.create_task: inserts the row with exactly the payload columns
the constructor passes (description stays NULL), then re-reads it by id. -/
def Repository.create_task (db : DB) (bid : Nat) (data : TaskCreate) :
    DB × Option Task :=
  let nt : Task := ⟨db.nextTaskId, bid, data.title, none, data.status,
                    data.priority, data.position, data.deadline, data.assignee_id⟩
  let db' : DB := { db with tasks := db.tasks ++ [nt], nextTaskId := db.nextTaskId + 1 }
  (db', Repository.get_task_by_id db' nt.id)

/-- Repository.update_task: an empty field set short-circuits to a plain
read; otherwise the matching rows are updated and the task re-read. -/
def Repository.update_task (db : DB) (tid : Nat) (data : TaskUpdate) :
    DB × Option Task :=
  if data.isEmpty then (db, Repository.get_task_by_id db tid)
  else
    let tasks := db.tasks.map
      (fun t => if decide (t.id = tid) then applyTaskUpdate data t else t)
    let db' : DB := { db with tasks := tasks }
    (db', Repository.get_task_by_id db' tid)

/-- Repository.delete_task, reporting whether a row was removed. -/
def Repository.delete_task (db : DB) (tid : Nat) : DB × Bool :=
  let remaining := db.tasks.filter (fun t => !(decide (t.id = tid)))
  ({ db with tasks := remaining }, decide (remaining.length < db.tasks.length))

/-!
Resource API layer (main.py handlers).  Authentication (JWT decoding via
`security.get_current_user`) is an external collaborator per the spec; the
handlers below model the body of each endpoint after the current user has
been resolved, so they take the caller's user id directly.  A handler's
outcome is an HTTP status: `ok` with the response payload, or `err` with a
status code (403 Forbidden, 404 Not Found, 409 Conflict, 500 for unhandled
exceptions such as database integrity errors or response-model failures).
-/

/-- An HTTP response: success payload or error status code. -/
inductive Resp (α : Type) where
  | ok : α → Resp α
  | err : Nat → Resp α
deriving DecidableEq, Repr

/-- `next((m for m in project.members if m.user_id == current_user.id), None)`
— the membership lookup every OWNER-or-MEMBER-gated handler performs. -/
def findMembership (db : DB) (pid uid : Nat) : Option ProjectMember :=
  (projectMembers db pid).find? (fun m => decide (m.user_id = uid))

/-- `membership.role not in [MemberRole.OWNER, MemberRole.MEMBER]` negated:
the role set the OWNER-or-MEMBER gate accepts. -/
def roleAllowed (r : MemberRole) : Bool :=
  decide (r = MemberRole.OWNER) || decide (r = MemberRole.MEMBER)

/-- `current_user.id in [member.user_id for member in project.members if
member.role == MemberRole.OWNER]` — the owner-only gate used by the
project-update and member-list endpoints. -/
def isOwnerOf (db : DB) (pid uid : Nat) : Bool :=
  (projectMembers db pid).any
    (fun m => decide (m.role = MemberRole.OWNER) && decide (m.user_id = uid))

/-- Python truthiness of `task_data.assignee_id`: None and 0 are falsy. -/
def truthy : Option Nat → Bool
  | none => false
  | some a => !(decide (a = 0))

/-- main.py register_user: 409 when a user with the email exists, otherwise
the insert is attempted; an IntegrityError from the username unique
constraint is unhandled (500).  The response schema carries no password
hash. -/
def register_user (db : DB) (data : UserCreate) : DB × Resp UserRead :=
  match Repository.get_user_by_email db data.email with
  | some _ => (db, Resp.err 409)
  | none =>
    match Repository.create_user db data with
    | (db', some u) => (db', Resp.ok ⟨u.id, u.username, u.email⟩)
    | (db', none) => (db', Resp.err 500)

/-- main.py create_new_project: delegates to Repository.create_project with
the current user as creator. -/
def create_new_project (db : DB) (uid : Nat) (data : ProjectCreate) :
    DB × Resp Project :=
  match Repository.create_project db uid data with
  | (db', some p) => (db', Resp.ok p)
  | (db', none) => (db', Resp.err 500)

/-- main.py get_project_details: 404 when the project does not exist, 403
unless the caller has a membership whose role is OWNER or MEMBER, then the
project is re-fetched and returned with its member list. -/
def get_project_details (db : DB) (uid pid : Nat) :
    Resp (Project × List ProjectMember) :=
  match getProject db pid with
  | none => Resp.err 404
  | some _ =>
    match findMembership db pid uid with
    | none => Resp.err 403
    | some m =>
      if roleAllowed m.role then
        match getProject db pid with
        | none => Resp.err 404
        | some p => Resp.ok (p, projectMembers db pid)
      else Resp.err 403

/-- main.py update_project_partial (PATCH /projects/…): 403 when the project
is missing or the caller is not an owner, else Repository.update_project
(404 when it returns no row). -/
def patch_project (db : DB) (uid pid : Nat) (data : ProjectUpdate) :
    DB × Resp Project :=
  match getProject db pid with
  | none => (db, Resp.err 403)
  | some _ =>
    if isOwnerOf db pid uid then
      match Repository.update_project db pid data with
      | (db', some p) => (db', Resp.ok p)
      | (db', none) => (db', Resp.err 404)
    else (db, Resp.err 403)

/-- main.py add_project_member: 403 when the project is missing or the
caller is not an owner; 404 when the user to add does not exist; else the
membership row is inserted (a duplicate-key IntegrityError is unhandled,
500). -/
def add_project_member (db : DB) (uid pid : Nat) (data : ProjectMemberCreate) :
    DB × Resp ProjectMember :=
  match getProject db pid with
  | none => (db, Resp.err 403)
  | some _ =>
    if isOwnerOf db pid uid then
      match Repository.get_user_by_id db data.user_id with
      | none => (db, Resp.err 404)
      | some _ =>
        match Repository.add_project_member db pid data with
        | (db', some nm) => (db', Resp.ok nm)
        | (db', none) => (db', Resp.err 500)
    else (db, Resp.err 403)

/-- main.py remove_member_from_project: 403 when the project is missing or
the caller is not an owner, else Repository.remove_project_member (404 when
no row was removed, 204 No Content otherwise). -/
def remove_member_from_project (db : DB) (uid pid target : Nat) :
    DB × Resp Unit :=
  match getProject db pid with
  | none => (db, Resp.err 403)
  | some _ =>
    if isOwnerOf db pid uid then
      match Repository.remove_project_member db pid target with
      | (db', true) => (db', Resp.ok ())
      | (db', false) => (db', Resp.err 404)
    else (db, Resp.err 403)

/-- main.py create_new_board_in_project: 404 when the project is missing,
403 unless the caller's role is OWNER or MEMBER, else
Repository.create_board (whose None conflict signal fails response-model
validation, 500). -/
def create_new_board_in_project (db : DB) (uid pid : Nat) (data : BoardCreate) :
    DB × Resp Board :=
  match getProject db pid with
  | none => (db, Resp.err 404)
  | some _ =>
    match findMembership db pid uid with
    | none => (db, Resp.err 403)
    | some m =>
      if roleAllowed m.role then
        match Repository.create_board db pid data with
        | (db', some b) => (db', Resp.ok b)
        | (db', none) => (db', Resp.err 500)
      else (db, Resp.err 403)

/-- main.py update_board_partial (PATCH): after the project/membership gate,
Repository.update_board is invoked twice in sequence, exactly as the
handler's body does; 404 when no board row comes back. -/
def patch_board (db : DB) (uid pid bid : Nat) (data : BoardUpdate) :
    DB × Resp Board :=
  match getProject db pid with
  | none => (db, Resp.err 404)
  | some _ =>
    match findMembership db pid uid with
    | none => (db, Resp.err 403)
    | some m =>
      if roleAllowed m.role then
        match Repository.update_board db bid data with
        | (db1, none) => (db1, Resp.err 404)
        | (db1, some _) =>
          match Repository.update_board db1 bid data with
          | (db2, none) => (db2, Resp.err 404)
          | (db2, some b) => (db2, Resp.ok b)
      else (db, Resp.err 403)

/-- main.py delete_board_by_id: project/membership gate, then
Repository.delete_board (404 when nothing was removed). -/
def delete_board_by_id (db : DB) (uid pid bid : Nat) : DB × Resp Unit :=
  match getProject db pid with
  | none => (db, Resp.err 404)
  | some _ =>
    match findMembership db pid uid with
    | none => (db, Resp.err 403)
    | some m =>
      if roleAllowed m.role then
        match Repository.delete_board db bid with
        | (db', true) => (db', Resp.ok ())
        | (db', false) => (db', Resp.err 404)
      else (db, Resp.err 403)

/-- main.py create_new_task_on_board: project/membership gate on the path
project, 404 when the board is missing, then the project of
`board.project_id` is re-fetched and its member-id list computed (an absent
project there is an unhandled AttributeError, 500); 403 when the caller is
not in that list, 409 when a truthy assignee id is not in it, else
Repository.create_task. -/
def create_new_task_on_board (db : DB) (uid pid bid : Nat) (data : TaskCreate) :
    DB × Resp Task :=
  match getProject db pid with
  | none => (db, Resp.err 404)
  | some _ =>
    match findMembership db pid uid with
    | none => (db, Resp.err 403)
    | some m =>
      if roleAllowed m.role then
        match Repository.get_board_by_id db bid with
        | none => (db, Resp.err 404)
        | some board =>
          match getProject db board.project_id with
          | none => (db, Resp.err 500)
          | some _ =>
            let member_ids := (projectMembers db board.project_id).map (fun mm => mm.user_id)
            if !(member_ids.contains uid) then (db, Resp.err 403)
            else if truthy data.assignee_id && !(member_ids.contains (data.assignee_id.getD 0)) then
              (db, Resp.err 409)
            else
              match Repository.create_task db bid data with
              | (db', some t) => (db', Resp.ok t)
              | (db', none) => (db', Resp.err 500)
      else (db, Resp.err 403)

/-- main.py get_task_details: project/membership gate, 404 when board or
task is missing, else the task. -/
def get_task_details (db : DB) (uid pid bid tid : Nat) : Resp Task :=
  match getProject db pid with
  | none => Resp.err 404
  | some _ =>
    match findMembership db pid uid with
    | none => Resp.err 403
    | some m =>
      if roleAllowed m.role then
        match Repository.get_board_by_id db bid with
        | none => Resp.err 404
        | some _ =>
          match Repository.get_task_by_id db tid with
          | none => Resp.err 404
          | some t => Resp.ok t
      else Resp.err 403

/-- main.py update_task_partial (PATCH): project/membership gate, 404 when
the board is missing, else Repository.update_task with the payload as
supplied — no check relates the payload's assignee to the member list. -/
def patch_task (db : DB) (uid pid bid tid : Nat) (data : TaskUpdate) :
    DB × Resp Task :=
  match getProject db pid with
  | none => (db, Resp.err 404)
  | some _ =>
    match findMembership db pid uid with
    | none => (db, Resp.err 403)
    | some m =>
      if roleAllowed m.role then
        match Repository.get_board_by_id db bid with
        | none => (db, Resp.err 404)
        | some _ =>
          match Repository.update_task db tid data with
          | (db', some t) => (db', Resp.ok t)
          | (db', none) => (db', Resp.err 404)
      else (db, Resp.err 403)

/-- main.py delete_task_by_id: project/membership gate, 404 when the board
is missing, else Repository.delete_task (404 when nothing was removed). -/
def delete_task_by_id (db : DB) (uid pid bid tid : Nat) : DB × Resp Unit :=
  match getProject db pid with
  | none => (db, Resp.err 404)
  | some _ =>
    match findMembership db pid uid with
    | none => (db, Resp.err 403)
    | some m =>
      if roleAllowed m.role then
        match Repository.get_board_by_id db bid with
        | none => (db, Resp.err 404)
        | some _ =>
          match Repository.delete_task db tid with
          | (db', true) => (db', Resp.ok ())
          | (db', false) => (db', Resp.err 404)
      else (db, Resp.err 403)

/-!
Helper lemmas about the membership lookups, shared by several claims.
-/

/-- If no member row of the project carries the user's id, the handlers'
membership lookup comes back empty. -/
theorem findMembership_eq_none (db : DB) (pid uid : Nat)
    (h : ∀ m ∈ db.members, m.project_id = pid → m.user_id ≠ uid) :
    findMembership db pid uid = none := by
  unfold findMembership projectMembers
  rw [List.find?_eq_none]
  intro m hm
  rw [List.mem_filter] at hm
  simp only [decide_eq_true_eq] at hm ⊢
  exact h m hm.1 hm.2

/-- If every member row of the project for the user is non-OWNER, the
owner-only gate evaluates to false. -/
theorem isOwnerOf_eq_false (db : DB) (pid uid : Nat)
    (h : ∀ m ∈ db.members, m.project_id = pid → m.user_id = uid →
          m.role ≠ MemberRole.OWNER) :
    isOwnerOf db pid uid = false := by
  unfold isOwnerOf projectMembers
  rw [List.any_eq_false]
  intro m hm
  rw [List.mem_filter] at hm
  simp only [Bool.and_eq_true, decide_eq_true_eq, not_and]
  simp only [decide_eq_true_eq] at hm
  intro hrole
  exact fun hu => h m hm.1 hm.2 hu hrole

/-- An OWNER row for the user makes the owner-only gate evaluate to true. -/
theorem isOwnerOf_eq_true (db : DB) (pid uid : Nat) (mrow : ProjectMember)
    (hm : mrow ∈ db.members) (hp : mrow.project_id = pid)
    (hu : mrow.user_id = uid) (hr : mrow.role = MemberRole.OWNER) :
    isOwnerOf db pid uid = true := by
  unfold isOwnerOf projectMembers
  rw [List.any_eq_true]
  refine ⟨mrow, ?_, ?_⟩
  · rw [List.mem_filter]
    exact ⟨hm, by simp [hp]⟩
  · simp [hr, hu]

/-!
Sample stores used to instantiate the claims' theorems on concrete inputs.
-/

/-- A store with two registered users and nothing else. -/
def usersOnlyDB : DB :=
  ⟨[⟨1, "alice", "a@x", "h1"⟩, ⟨2, "bob", "b@x", "h2"⟩], [], [], [], [], 3, 1, 1, 1⟩

def sampleProjectCreate : ProjectCreate := ⟨"P", none, ProjectStatus.ACTIVE⟩

/-- `usersOnlyDB` after user 1 created project 1 (becoming its owner). -/
def projDB : DB := (Repository.create_project usersOnlyDB 1 sampleProjectCreate).1

/-- `projDB` after user 1 created board 1 ("Backlog") in project 1. -/
def boardDB : DB := (Repository.create_board projDB 1 ⟨"Backlog", 0⟩).1

def sampleTaskCreate : TaskCreate :=
  ⟨"T1", none, TaskStatus.TODO, TaskPriority.MEDIUM, 0, none, none⟩

/-- `boardDB` after task 1 was created on board 1 with no assignee. -/
def taskDB : DB := (Repository.create_task boardDB 1 sampleTaskCreate).1

/-- `taskDB` after user 2 was added to project 1 with the restricted
NOT_ACCESSABLE_MEMBER role. -/
def restrictedDB : DB :=
  (Repository.add_project_member taskDB 1 ⟨2, MemberRole.NOT_ACCESSABLE_MEMBER⟩).1

/-- C1: creating a project atomically creates the Project row and an owner
ProjectMember row for the creating user — if either write fails the
transaction commits neither — and immediately after a successful creation
exactly one owner-role ProjectMember exists for the new project, whose
user_id is the creator's id. -/
theorem C1_create_project_atomic (db : DB) (uid : Nat) (data : ProjectCreate)
    (hfresh : ∀ m ∈ db.members, m.project_id ≠ db.nextProjectId) :
    (∀ b, Repository.create_project_tx db uid data false b = (db, none)) ∧
    (∀ a, Repository.create_project_tx db uid data a false = (db, none)) ∧
    (Repository.create_project db uid data).2
      = some ⟨db.nextProjectId, data.name, data.description, data.status⟩ ∧
    (Repository.create_project db uid data).1.members.filter
        (fun m => decide (m.project_id = db.nextProjectId)
          && decide (m.role = MemberRole.OWNER))
      = [⟨db.nextProjectId, uid, MemberRole.OWNER⟩] := by
  refine ⟨?_, ?_, ?_, ?_⟩
  · intro b; simp [Repository.create_project_tx]
  · intro a; simp [Repository.create_project_tx]
  · simp [Repository.create_project, Repository.create_project_tx]
  · simp only [Repository.create_project, Repository.create_project_tx,
      Bool.and_self, if_true, List.filter_append]
    rw [List.filter_eq_nil_iff.mpr, List.nil_append]
    · simp
    · intro m hm
      simp only [Bool.and_eq_true, decide_eq_true_eq, not_and]
      exact fun h => absurd h (hfresh m hm)

/-- Witness for C1 at a concrete store with a fresh project id. -/
theorem C1_create_project_atomic_witness :
    (∀ m ∈ usersOnlyDB.members, m.project_id ≠ usersOnlyDB.nextProjectId) ∧
    (Repository.create_project usersOnlyDB 1 sampleProjectCreate).1.members.filter
        (fun m => decide (m.project_id = usersOnlyDB.nextProjectId)
          && decide (m.role = MemberRole.OWNER))
      = [⟨usersOnlyDB.nextProjectId, 1, MemberRole.OWNER⟩] :=
  ⟨by decide,
   (C1_create_project_atomic usersOnlyDB 1 sampleProjectCreate (by decide)).2.2.2⟩

/-- C2: a user with no ProjectMember record in an existing project's member
list is denied (403 Forbidden, store untouched) by every role-gated
detail-read or mutation handler on that project: project details, board
create/update/delete and task create/read/update/delete. -/
theorem C2_nonmember_denied (db : DB) (uid pid : Nat) (p : Project)
    (hp : getProject db pid = some p)
    (h : ∀ m ∈ db.members, m.project_id = pid → m.user_id ≠ uid) :
    get_project_details db uid pid = Resp.err 403 ∧
    (∀ bdata, create_new_board_in_project db uid pid bdata = (db, Resp.err 403)) ∧
    (∀ bid bdata, patch_board db uid pid bid bdata = (db, Resp.err 403)) ∧
    (∀ bid, delete_board_by_id db uid pid bid = (db, Resp.err 403)) ∧
    (∀ bid tdata, create_new_task_on_board db uid pid bid tdata = (db, Resp.err 403)) ∧
    (∀ bid tid, get_task_details db uid pid bid tid = Resp.err 403) ∧
    (∀ bid tid tdata, patch_task db uid pid bid tid tdata = (db, Resp.err 403)) ∧
    (∀ bid tid, delete_task_by_id db uid pid bid tid = (db, Resp.err 403)) := by
  have hm : findMembership db pid uid = none := findMembership_eq_none db pid uid h
  refine ⟨?_, ?_, ?_, ?_, ?_, ?_, ?_, ?_⟩ <;>
    intros <;>
    simp [get_project_details, create_new_board_in_project, patch_board,
      delete_board_by_id, create_new_task_on_board, get_task_details,
      patch_task, delete_task_by_id, hp, hm]

/-- Witness for C2: user 2 holds no membership in project 1 of `projDB` and
every role-gated handler turns them away with 403. -/
theorem C2_nonmember_denied_witness :
    getProject projDB 1 = some ⟨1, "P", none, ProjectStatus.ACTIVE⟩ ∧
    (∀ m ∈ projDB.members, m.project_id = 1 → m.user_id ≠ 2) ∧
    get_project_details projDB 2 1 = Resp.err 403 ∧
    create_new_board_in_project projDB 2 1 ⟨"B", 0⟩ = (projDB, Resp.err 403) :=
  have hthm := C2_nonmember_denied projDB 2 1 ⟨1, "P", none, ProjectStatus.ACTIVE⟩
    (by decide) (by decide)
  ⟨by decide, by decide, hthm.1, hthm.2.1 ⟨"B", 0⟩⟩

/-- C3: project update and member-list mutations (add, remove) require role
exactly OWNER — any caller whose membership rows in the project are all
non-OWNER is denied with 403 and the store is untouched, while a caller
holding an OWNER row proceeds to the corresponding Entity Store operation. -/
theorem C3_owner_only_mutations (db : DB) (uid pid : Nat) (p : Project)
    (hp : getProject db pid = some p) :
    ((∀ m ∈ db.members, m.project_id = pid → m.user_id = uid →
        m.role ≠ MemberRole.OWNER) →
      (∀ d, patch_project db uid pid d = (db, Resp.err 403)) ∧
      (∀ d, add_project_member db uid pid d = (db, Resp.err 403)) ∧
      (∀ t, remove_member_from_project db uid pid t = (db, Resp.err 403))) ∧
    (∀ mrow ∈ db.members, mrow.project_id = pid → mrow.user_id = uid →
        mrow.role = MemberRole.OWNER →
      (∀ d, patch_project db uid pid d
        = (match Repository.update_project db pid d with
           | (db', some q) => (db', Resp.ok q)
           | (db', none) => (db', Resp.err 404))) ∧
      (∀ d, add_project_member db uid pid d
        = (match Repository.get_user_by_id db d.user_id with
           | none => (db, Resp.err 404)
           | some _ =>
             match Repository.add_project_member db pid d with
             | (db', some nm) => (db', Resp.ok nm)
             | (db', none) => (db', Resp.err 500))) ∧
      (∀ t, remove_member_from_project db uid pid t
        = (match Repository.remove_project_member db pid t with
           | (db', true) => (db', Resp.ok ())
           | (db', false) => (db', Resp.err 404)))) := by
  constructor
  · intro h
    have ho : isOwnerOf db pid uid = false := isOwnerOf_eq_false db pid uid h
    refine ⟨?_, ?_, ?_⟩ <;>
      intros <;>
      simp [patch_project, add_project_member, remove_member_from_project, hp, ho]
  · intro mrow hmem hmp hmu hmr
    have ho : isOwnerOf db pid uid = true := isOwnerOf_eq_true db pid uid mrow hmem hmp hmu hmr
    refine ⟨?_, ?_, ?_⟩ <;>
      intros <;>
      simp [patch_project, add_project_member, remove_member_from_project, hp, ho]

/-- Witness for C3 at `restrictedDB`: the restricted user 2 is denied the
member-add endpoint, and the owner user 1 reaches the Entity Store removal
operation. -/
theorem C3_owner_only_mutations_witness :
    add_project_member restrictedDB 2 1 ⟨2, MemberRole.MEMBER⟩
      = (restrictedDB, Resp.err 403) ∧
    remove_member_from_project restrictedDB 1 1 2
      = (match Repository.remove_project_member restrictedDB 1 2 with
         | (db', true) => (db', Resp.ok ())
         | (db', false) => (db', Resp.err 404)) :=
  have hthm := C3_owner_only_mutations restrictedDB 2 1
    ⟨1, "P", none, ProjectStatus.ACTIVE⟩ (by decide)
  have hthm2 := C3_owner_only_mutations restrictedDB 1 1
    ⟨1, "P", none, ProjectStatus.ACTIVE⟩ (by decide)
  ⟨(hthm.1 (by decide)).2.1 ⟨2, MemberRole.MEMBER⟩,
   (hthm2.2 ⟨1, 1, MemberRole.OWNER⟩ (by decide) (by decide) (by decide) (by decide)).2.2 2⟩

/-- C4: the at-least-one-owner invariant is violated by the code.  In the
state reached by creating project 1 (sole owner user 1), the remove-member
endpoint lets that owner remove themselves: the request succeeds (204 No
Content) and the resulting store holds no OWNER row — indeed no member row
at all — for the project, contradicting the invariant that every project
has at least one owner at every state reachable after creation. -/
theorem C4_last_owner_removable :
    projDB = (Repository.create_project usersOnlyDB 1 sampleProjectCreate).1 ∧
    projDB.members.filter
        (fun m => decide (m.project_id = 1) && decide (m.role = MemberRole.OWNER))
      = [⟨1, 1, MemberRole.OWNER⟩] ∧
    (remove_member_from_project projDB 1 1 1).2 = Resp.ok () ∧
    (remove_member_from_project projDB 1 1 1).1.members.filter
        (fun m => decide (m.project_id = 1) && decide (m.role = MemberRole.OWNER))
      = [] ∧
    getProject (remove_member_from_project projDB 1 1 1).1 1
      = some ⟨1, "P", none, ProjectStatus.ACTIVE⟩ := by
  decide

/-- A found membership puts the user's id in the handler's member-id list. -/
theorem member_ids_contains_of_findMembership (db : DB) (pid uid : Nat)
    (mrow : ProjectMember) (h : findMembership db pid uid = some mrow) :
    ((projectMembers db pid).map (fun mm => mm.user_id)).contains uid = true := by
  have hmem : mrow ∈ projectMembers db pid := List.mem_of_find?_eq_some h
  have hu : mrow.user_id = uid := by simpa using List.find?_some h
  exact List.elem_iff.mpr (List.mem_map.mpr ⟨mrow, hmem, hu⟩)

/-- A user in no member row of the project is absent from the handler's
member-id list. -/
theorem member_ids_not_contains (db : DB) (pid a : Nat)
    (h : ∀ m ∈ db.members, m.project_id = pid → m.user_id ≠ a) :
    ((projectMembers db pid).map (fun mm => mm.user_id)).contains a = false := by
  rw [Bool.eq_false_iff]
  intro hc
  obtain ⟨m, hm, hma⟩ := List.mem_map.mp (List.elem_iff.mp hc)
  simp only [projectMembers, List.mem_filter, decide_eq_true_eq] at hm
  exact h m hm.1 hm.2 hma

/-- C5 counterexample: in `taskDB`, user 2 is in no member row of the
project, yet the owner's task update supplying assignee 2 does not fail
with 409 — it succeeds and the stored task row now carries assignee 2. -/
theorem C5_counterexample :
    taskDB.members.all (fun m => !(decide (m.user_id = 2))) = true ∧
    (patch_task taskDB 1 1 1 1 ⟨none, none, none, none, none, none, some (some 2)⟩).2
      ≠ Resp.err 409 ∧
    (patch_task taskDB 1 1 1 1 ⟨none, none, none, none, none, none, some (some 2)⟩).2
      = Resp.ok ⟨1, 1, "T1", none, TaskStatus.TODO, TaskPriority.MEDIUM, 0, none, some 2⟩ ∧
    Repository.get_task_by_id
        (patch_task taskDB 1 1 1 1 ⟨none, none, none, none, none, none, some (some 2)⟩).1 1
      = some ⟨1, 1, "T1", none, TaskStatus.TODO, TaskPriority.MEDIUM, 0, none, some 2⟩ := by
  decide

/-- C5 amended: the assignee-membership check is enforced at task creation
only — creating a task with a non-member assignee (nonzero id) fails with
409 and writes nothing, while the task-update handler performs no assignee
check at all and hands any payload straight to the Entity Store update. -/
theorem C5_assignee_checked_at_create_only (db : DB) (uid pid bid a : Nat)
    (p : Project) (b : Board) (mrow : ProjectMember)
    (hp : getProject db pid = some p)
    (hfm : findMembership db pid uid = some mrow)
    (hrole : roleAllowed mrow.role = true)
    (hb : Repository.get_board_by_id db bid = some b)
    (hbp : b.project_id = pid)
    (ha0 : a ≠ 0)
    (hanm : ∀ m ∈ db.members, m.project_id = pid → m.user_id ≠ a) :
    (∀ tdata : TaskCreate,
      create_new_task_on_board db uid pid bid
        ⟨tdata.title, tdata.description, tdata.status, tdata.priority,
         tdata.position, tdata.deadline, some a⟩ = (db, Resp.err 409)) ∧
    (∀ tid tdata, patch_task db uid pid bid tid tdata
        = (match Repository.update_task db tid tdata with
           | (db', some t) => (db', Resp.ok t)
           | (db', none) => (db', Resp.err 404))) := by
  constructor
  · intro tdata
    have hmem : mrow ∈ projectMembers db pid := List.mem_of_find?_eq_some hfm
    have hu : mrow.user_id = uid := by simpa using List.find?_some hfm
    have h1 : ¬ (∀ x ∈ projectMembers db pid, ¬ x.user_id = uid) :=
      fun hall => hall mrow hmem hu
    have h2 : ∀ x ∈ projectMembers db pid, ¬ x.user_id = a := by
      intro x hx
      simp only [projectMembers, List.mem_filter, decide_eq_true_eq] at hx
      exact hanm x hx.1 hx.2
    simp only [create_new_task_on_board, hp, hfm, hrole, hb, hbp, truthy, ha0, h1, h2]
    simp [h1, h2, ha0]
    intro x hx hxa
    exact absurd hxa (h2 x hx)
  · intro tid tdata
    simp [patch_task, hp, hfm, hrole, hb]

/-- Witness for C5's amended theorem at `taskDB` with assignee 2. -/
theorem C5_assignee_checked_at_create_only_witness :
    create_new_task_on_board taskDB 1 1 1
        ⟨"T2", none, TaskStatus.TODO, TaskPriority.MEDIUM, 0, none, some 2⟩
      = (taskDB, Resp.err 409) ∧
    patch_task taskDB 1 1 1 1 TaskUpdate.empty
      = (match Repository.update_task taskDB 1 TaskUpdate.empty with
         | (db', some t) => (db', Resp.ok t)
         | (db', none) => (db', Resp.err 404)) :=
  have hthm := C5_assignee_checked_at_create_only taskDB 1 1 1 2
    ⟨1, "P", none, ProjectStatus.ACTIVE⟩ ⟨1, 1, "Backlog", 0⟩
    ⟨1, 1, MemberRole.OWNER⟩ (by decide) (by decide) (by decide) (by decide)
    (by decide) (by decide) (by decide)
  ⟨hthm.1 ⟨"T2", none, TaskStatus.TODO, TaskPriority.MEDIUM, 0, none, none⟩,
   hthm.2 1 TaskUpdate.empty⟩

/-- C6 counterexample: in `projDB`, project 1 exists, yet an empty partial
update of it returns no entity at all — Repository.update_project yields
None instead of the project's current state, and the PATCH handler turns
that into 404 even for the project's owner. -/
theorem C6_counterexample :
    getProject projDB 1 = some ⟨1, "P", none, ProjectStatus.ACTIVE⟩ ∧
    Repository.update_project projDB 1 ProjectUpdate.empty = (projDB, none) ∧
    (Repository.update_project projDB 1 ProjectUpdate.empty).2
      ≠ some ⟨1, "P", none, ProjectStatus.ACTIVE⟩ ∧
    patch_project projDB 1 1 ProjectUpdate.empty = (projDB, Resp.err 404) := by
  decide

/-- C6 amended: an empty partial update always leaves the stored entity
unchanged and is idempotent for Projects, Boards and Tasks alike, and for
Boards and Tasks it returns the entity's current state; for Projects,
however, Repository.update_project returns None on an empty field set
(surfaced as 404 by the handler) rather than the current state. -/
theorem C6_empty_update (db : DB) (pid bid tid : Nat) (b : Board) (t : Task)
    (hb : Repository.get_board_by_id db bid = some b)
    (ht : Repository.get_task_by_id db tid = some t) :
    Repository.update_project db pid ProjectUpdate.empty = (db, none) ∧
    Repository.update_board db bid BoardUpdate.empty = (db, some b) ∧
    Repository.update_task db tid TaskUpdate.empty = (db, some t) ∧
    Repository.update_project
        (Repository.update_project db pid ProjectUpdate.empty).1 pid ProjectUpdate.empty
      = (db, none) ∧
    Repository.update_board
        (Repository.update_board db bid BoardUpdate.empty).1 bid BoardUpdate.empty
      = (db, some b) ∧
    Repository.update_task
        (Repository.update_task db tid TaskUpdate.empty).1 tid TaskUpdate.empty
      = (db, some t) := by
  have hpe : Repository.update_project db pid ProjectUpdate.empty = (db, none) := by
    simp [Repository.update_project, ProjectUpdate.empty, ProjectUpdate.isEmpty]
  have hbe : Repository.update_board db bid BoardUpdate.empty = (db, some b) := by
    simp [Repository.update_board, BoardUpdate.empty, BoardUpdate.isEmpty, hb]
  have hte : Repository.update_task db tid TaskUpdate.empty = (db, some t) := by
    simp [Repository.update_task, TaskUpdate.empty, TaskUpdate.isEmpty, ht]
  exact ⟨hpe, hbe, hte, by rw [hpe]; exact hpe, by rw [hbe]; exact hbe, by rw [hte]; exact hte⟩

/-- Witness for C6's amended theorem at `taskDB`. -/
theorem C6_empty_update_witness :
    Repository.update_board taskDB 1 BoardUpdate.empty
      = (taskDB, some ⟨1, 1, "Backlog", 0⟩) ∧
    Repository.update_task taskDB 1 TaskUpdate.empty
      = (taskDB, some ⟨1, 1, "T1", none, TaskStatus.TODO, TaskPriority.MEDIUM, 0, none, none⟩) :=
  have hthm := C6_empty_update taskDB 1 1 1 ⟨1, 1, "Backlog", 0⟩
    ⟨1, 1, "T1", none, TaskStatus.TODO, TaskPriority.MEDIUM, 0, none, none⟩
    (by decide) (by decide)
  ⟨hthm.2.1, hthm.2.2.1⟩

/-- Looking up an id after a row-wise write touches exactly the looked-up
task row. -/
theorem task_write_find (l : List Task) (tid : Nat) (u : TaskUpdate) :
    (l.map (fun x => if decide (x.id = tid) then applyTaskUpdate u x else x)).find?
        (fun x => decide (x.id = tid))
      = (l.find? (fun x => decide (x.id = tid))).map
          (fun x => if decide (x.id = tid) then applyTaskUpdate u x else x) := by
  rw [List.find?_map]
  have hpf : ((fun x => decide (x.id = tid)) ∘
        fun x => if decide (x.id = tid) then applyTaskUpdate u x else x)
      = (fun x : Task => decide (x.id = tid)) := by
    funext x
    by_cases hx : x.id = tid <;> simp [Function.comp, hx, applyTaskUpdate]
  rw [hpf]

/-- Board analogue of `task_write_find`. -/
theorem board_write_find (l : List Board) (bid : Nat) (u : BoardUpdate) :
    (l.map (fun x => if decide (x.id = bid) then applyBoardUpdate u x else x)).find?
        (fun x => decide (x.id = bid))
      = (l.find? (fun x => decide (x.id = bid))).map
          (fun x => if decide (x.id = bid) then applyBoardUpdate u x else x) := by
  rw [List.find?_map]
  have hpf : ((fun x => decide (x.id = bid)) ∘
        fun x => if decide (x.id = bid) then applyBoardUpdate u x else x)
      = (fun x : Board => decide (x.id = bid)) := by
    funext x
    by_cases hx : x.id = bid <;> simp [Function.comp, hx, applyBoardUpdate]
  rw [hpf]

/-- Project analogue of `task_write_find`. -/
theorem project_write_find (l : List Project) (pid : Nat) (u : ProjectUpdate) :
    (l.map (fun x => if decide (x.id = pid) then applyProjectUpdate u x else x)).find?
        (fun x => decide (x.id = pid))
      = (l.find? (fun x => decide (x.id = pid))).map
          (fun x => if decide (x.id = pid) then applyProjectUpdate u x else x) := by
  rw [List.find?_map]
  have hpf : ((fun x => decide (x.id = pid)) ∘
        fun x => if decide (x.id = pid) then applyProjectUpdate u x else x)
      = (fun x : Project => decide (x.id = pid)) := by
    funext x
    by_cases hx : x.id = pid <;> simp [Function.comp, hx, applyProjectUpdate]
  rw [hpf]

/-- An all-unset task payload applies as the identity. -/
theorem applyTaskUpdate_of_isEmpty (u : TaskUpdate) (t : Task)
    (h : u.isEmpty = true) : applyTaskUpdate u t = t := by
  simp only [TaskUpdate.isEmpty, Bool.and_eq_true, Option.isNone_iff_eq_none] at h
  obtain ⟨⟨⟨⟨⟨⟨h1, h2⟩, h3⟩, h4⟩, h5⟩, h6⟩, h7⟩ := h
  simp [applyTaskUpdate, h1, h2, h3, h4, h5, h6, h7]

/-- An all-unset board payload applies as the identity. -/
theorem applyBoardUpdate_of_isEmpty (u : BoardUpdate) (b : Board)
    (h : u.isEmpty = true) : applyBoardUpdate u b = b := by
  simp only [BoardUpdate.isEmpty, Bool.and_eq_true, Option.isNone_iff_eq_none] at h
  simp [applyBoardUpdate, h.1, h.2]

/-- An all-unset project payload applies as the identity. -/
theorem applyProjectUpdate_of_isEmpty (u : ProjectUpdate) (p : Project)
    (h : u.isEmpty = true) : applyProjectUpdate u p = p := by
  simp only [ProjectUpdate.isEmpty, Bool.and_eq_true, Option.isNone_iff_eq_none] at h
  simp [applyProjectUpdate, h.1.1, h.1.2, h.2]

/-- After Repository.update_task, the stored row of the updated id is the
old row with the supplied fields replaced, and that is also what the call
returns. -/
theorem update_task_stored (db : DB) (tid : Nat) (u : TaskUpdate) (t : Task)
    (ht : Repository.get_task_by_id db tid = some t) :
    Repository.get_task_by_id (Repository.update_task db tid u).1 tid
      = some (applyTaskUpdate u t) ∧
    (Repository.update_task db tid u).2 = some (applyTaskUpdate u t) := by
  have htid : t.id = tid := by
    have := List.find?_some ht
    simpa using this
  by_cases he : u.isEmpty = true
  · rw [applyTaskUpdate_of_isEmpty u t he]
    simp [Repository.update_task, he, ht]
  · have hfind := task_write_find db.tasks tid u
    rw [show List.find? (fun x => decide (x.id = tid)) db.tasks = some t from ht] at hfind
    simp only [Option.map] at hfind
    rw [if_pos (by simp [htid])] at hfind
    constructor
    · simp only [Repository.update_task, he, Bool.false_eq_true, if_false,
        Repository.get_task_by_id]
      exact hfind
    · simp only [Repository.update_task, he, Bool.false_eq_true, if_false,
        Repository.get_task_by_id]
      exact hfind

/-- Board analogue of `update_task_stored`. -/
theorem update_board_stored (db : DB) (bid : Nat) (u : BoardUpdate) (b : Board)
    (hb : Repository.get_board_by_id db bid = some b) :
    Repository.get_board_by_id (Repository.update_board db bid u).1 bid
      = some (applyBoardUpdate u b) ∧
    (Repository.update_board db bid u).2 = some (applyBoardUpdate u b) := by
  have hbid : b.id = bid := by
    have := List.find?_some hb
    simpa using this
  by_cases he : u.isEmpty = true
  · rw [applyBoardUpdate_of_isEmpty u b he]
    simp [Repository.update_board, he, hb]
  · have hfind := board_write_find db.boards bid u
    rw [show List.find? (fun x => decide (x.id = bid)) db.boards = some b from hb] at hfind
    simp only [Option.map] at hfind
    rw [if_pos (by simp [hbid])] at hfind
    constructor
    · simp only [Repository.update_board, he, Bool.false_eq_true, if_false,
        Repository.get_board_by_id]
      exact hfind
    · simp only [Repository.update_board, he, Bool.false_eq_true, if_false,
        Repository.get_board_by_id]
      exact hfind

/-- Project analogue of `update_task_stored` (on the stored row; the
returned value differs in the empty case, see C6). -/
theorem update_project_stored (db : DB) (pid : Nat) (u : ProjectUpdate) (p : Project)
    (hp : getProject db pid = some p) :
    getProject (Repository.update_project db pid u).1 pid
      = some (applyProjectUpdate u p) := by
  have hpid : p.id = pid := by
    have := List.find?_some hp
    simpa using this
  by_cases he : u.isEmpty = true
  · rw [applyProjectUpdate_of_isEmpty u p he]
    simp [Repository.update_project, he, hp]
  · have hfind := project_write_find db.projects pid u
    rw [show List.find? (fun x => decide (x.id = pid)) db.projects = some p from hp] at hfind
    simp only [Option.map] at hfind
    rw [if_pos (by simp [hpid])] at hfind
    simp only [Repository.update_project, he, Bool.false_eq_true, if_false, getProject]
    exact hfind

/-- C7: partial update of a Project, Board or Task changes only the fields
explicitly supplied — after the update the stored row is the old row with
exactly the supplied fields replaced, and every absent field keeps its
previous value. -/
theorem C7_partial_update_frame (db : DB) (pid bid tid : Nat)
    (p : Project) (b : Board) (t : Task)
    (pu : ProjectUpdate) (bu : BoardUpdate) (tu : TaskUpdate)
    (hp : getProject db pid = some p)
    (hb : Repository.get_board_by_id db bid = some b)
    (ht : Repository.get_task_by_id db tid = some t) :
    getProject (Repository.update_project db pid pu).1 pid
      = some (applyProjectUpdate pu p) ∧
    (pu.name = none → (applyProjectUpdate pu p).name = p.name) ∧
    (pu.description = none → (applyProjectUpdate pu p).description = p.description) ∧
    (pu.status = none → (applyProjectUpdate pu p).status = p.status) ∧
    Repository.get_board_by_id (Repository.update_board db bid bu).1 bid
      = some (applyBoardUpdate bu b) ∧
    (bu.title = none → (applyBoardUpdate bu b).title = b.title) ∧
    (bu.position = none → (applyBoardUpdate bu b).position = b.position) ∧
    Repository.get_task_by_id (Repository.update_task db tid tu).1 tid
      = some (applyTaskUpdate tu t) ∧
    (tu.title = none → (applyTaskUpdate tu t).title = t.title) ∧
    (tu.description = none → (applyTaskUpdate tu t).description = t.description) ∧
    (tu.status = none → (applyTaskUpdate tu t).status = t.status) ∧
    (tu.priority = none → (applyTaskUpdate tu t).priority = t.priority) ∧
    (tu.position = none → (applyTaskUpdate tu t).position = t.position) ∧
    (tu.deadline = none → (applyTaskUpdate tu t).deadline = t.deadline) ∧
    (tu.assignee_id = none → (applyTaskUpdate tu t).assignee_id = t.assignee_id) := by
  refine ⟨update_project_stored db pid pu p hp, ?_, ?_, ?_,
    (update_board_stored db bid bu b hb).1, ?_, ?_,
    (update_task_stored db tid tu t ht).1, ?_, ?_, ?_, ?_, ?_, ?_, ?_⟩ <;>
    (intro h; simp [applyProjectUpdate, applyBoardUpdate, applyTaskUpdate, h])

/-- Witness for C7 at `taskDB`, renaming the project and repositioning the
task while all other fields stay put. -/
theorem C7_partial_update_frame_witness :
    getProject (Repository.update_project taskDB 1 ⟨some "Q", none, none⟩).1 1
      = some (applyProjectUpdate ⟨some "Q", none, none⟩ ⟨1, "P", none, ProjectStatus.ACTIVE⟩) ∧
    Repository.get_task_by_id
        (Repository.update_task taskDB 1 ⟨none, none, none, none, some 5, none, none⟩).1 1
      = some (applyTaskUpdate ⟨none, none, none, none, some 5, none, none⟩
          ⟨1, 1, "T1", none, TaskStatus.TODO, TaskPriority.MEDIUM, 0, none, none⟩) :=
  have hthm := C7_partial_update_frame taskDB 1 1 1
    ⟨1, "P", none, ProjectStatus.ACTIVE⟩ ⟨1, 1, "Backlog", 0⟩
    ⟨1, 1, "T1", none, TaskStatus.TODO, TaskPriority.MEDIUM, 0, none, none⟩
    ⟨some "Q", none, none⟩ BoardUpdate.empty ⟨none, none, none, none, some 5, none, none⟩
    (by decide) (by decide) (by decide)
  ⟨hthm.1, hthm.2.2.2.2.2.2.2.1⟩

/-- C8: board creation returns the None conflict signal, writing no row,
exactly when a board with the same title already exists under the same
project; with no such board in that project the insert succeeds — title
uniqueness is scoped per-project, so a same-titled board in a different
project does not block it. -/
theorem C8_board_title_conflict (db : DB) (pid : Nat) (data : BoardCreate)
    (hfresh : ∀ b ∈ db.boards, b.id ≠ db.nextBoardId) :
    ((∃ b ∈ db.boards, b.project_id = pid ∧ b.title = data.title) →
      Repository.create_board db pid data = (db, none)) ∧
    ((∀ b ∈ db.boards, b.project_id = pid → b.title ≠ data.title) →
      Repository.create_board db pid data
        = ({ db with
              boards := db.boards ++ [⟨db.nextBoardId, pid, data.title, data.position⟩],
              nextBoardId := db.nextBoardId + 1 },
           some ⟨db.nextBoardId, pid, data.title, data.position⟩)) := by
  constructor
  · rintro ⟨b, hb, hbp, hbt⟩
    have hsome : (db.boards.find?
        (fun x => decide (x.project_id = pid) && decide (x.title = data.title))).isSome := by
      rw [List.find?_isSome]
      exact ⟨b, hb, by simp [hbp, hbt]⟩
    unfold Repository.create_board
    obtain ⟨c, hc⟩ := Option.isSome_iff_exists.mp hsome
    rw [hc]
  · intro hnone
    have hn : db.boards.find?
        (fun x => decide (x.project_id = pid) && decide (x.title = data.title)) = none := by
      rw [List.find?_eq_none]
      intro x hx
      simp only [Bool.and_eq_true, decide_eq_true_eq, not_and]
      exact hnone x hx
    have hn2 : db.boards.find? (fun x => decide (x.id = db.nextBoardId)) = none := by
      rw [List.find?_eq_none]
      intro x hx
      simp only [decide_eq_true_eq]
      exact hfresh x hx
    unfold Repository.create_board
    rw [hn]
    simp [Repository.get_board_by_id, hn2]

/-- Witness for C8: in `boardDB` (project 1 already has board "Backlog"),
creating "Backlog" again under project 1 is refused with None and no write,
while creating it under project 2 of an extended store succeeds. -/
theorem C8_board_title_conflict_witness :
    Repository.create_board boardDB 1 ⟨"Backlog", 0⟩ = (boardDB, none) ∧
    Repository.create_board boardDB 2 ⟨"Backlog", 0⟩
      = ({ boardDB with
            boards := boardDB.boards ++ [⟨2, 2, "Backlog", 0⟩],
            nextBoardId := 3 },
         some ⟨2, 2, "Backlog", 0⟩) :=
  have h1 := C8_board_title_conflict boardDB 1 ⟨"Backlog", 0⟩ (by decide)
  have h2 := C8_board_title_conflict boardDB 2 ⟨"Backlog", 0⟩ (by decide)
  ⟨h1.1 ⟨⟨1, 1, "Backlog", 0⟩, by decide, by decide, by decide⟩,
   h2.2 (by decide)⟩

/-- C9 counterexample: registering "alice"/"c@x" against a store already
holding user "alice" (email "a@x") is a username conflict, but the handler
only checks the email — the request does not fail with 409; the attempted
insert dies on the database unique constraint instead (500). -/
theorem C9_counterexample :
    (usersOnlyDB.users.any (fun u => decide (u.username = "alice"))) = true ∧
    register_user usersOnlyDB ⟨"alice", "c@x", "pw"⟩ ≠ (usersOnlyDB, Resp.err 409) ∧
    register_user usersOnlyDB ⟨"alice", "c@x", "pw"⟩ = (usersOnlyDB, Resp.err 500) := by
  decide

/-- C9 amended: registration fails with 409 (writing nothing) only when the
requested email is already taken; a duplicate username alone escapes the
handler's check and fails as an unhandled database constraint error (500),
also writing nothing; with both username and email fresh the user is
created and returned through a schema carrying no password hash. -/
theorem C9_register_email_conflict_only (db : DB) (data : UserCreate) :
    ((∃ u ∈ db.users, u.email = data.email) →
      register_user db data = (db, Resp.err 409)) ∧
    ((∀ u ∈ db.users, u.email ≠ data.email) →
      (∃ u ∈ db.users, u.username = data.username) →
      register_user db data = (db, Resp.err 500)) ∧
    ((∀ u ∈ db.users, u.email ≠ data.email ∧ u.username ≠ data.username) →
      register_user db data
        = ({ db with
              users := db.users
                ++ [⟨db.nextUserId, data.username, data.email, hash_password data.password⟩],
              nextUserId := db.nextUserId + 1 },
           Resp.ok ⟨db.nextUserId, data.username, data.email⟩)) := by
  refine ⟨?_, ?_, ?_⟩
  · rintro ⟨u, hu, hue⟩
    have hsome : (db.users.find? (fun x => decide (x.email = data.email))).isSome := by
      rw [List.find?_isSome]
      exact ⟨u, hu, by simp [hue]⟩
    unfold register_user Repository.get_user_by_email
    obtain ⟨c, hc⟩ := Option.isSome_iff_exists.mp hsome
    rw [hc]
  · intro hne hex
    have hn : db.users.find? (fun x => decide (x.email = data.email)) = none := by
      rw [List.find?_eq_none]
      intro x hx
      simpa using hne x hx
    have hany : db.users.any
        (fun u => decide (u.username = data.username) || decide (u.email = data.email)) = true := by
      rw [List.any_eq_true]
      obtain ⟨u, hu, hus⟩ := hex
      exact ⟨u, hu, by simp [hus]⟩
    unfold register_user Repository.get_user_by_email
    rw [hn]
    simp [Repository.create_user, hany]
  · intro hboth
    have hn : db.users.find? (fun x => decide (x.email = data.email)) = none := by
      rw [List.find?_eq_none]
      intro x hx
      simpa using (hboth x hx).1
    have hany : db.users.any
        (fun u => decide (u.username = data.username) || decide (u.email = data.email)) = false := by
      rw [List.any_eq_false]
      intro x hx
      simp only [Bool.or_eq_true, decide_eq_true_eq, not_or]
      exact ⟨(hboth x hx).2, (hboth x hx).1⟩
    unfold register_user Repository.get_user_by_email
    rw [hn]
    simp [Repository.create_user, hany]

/-- Witness for C9's amended theorem: 409 on a taken email, and a clean
creation for a fresh username and email. -/
theorem C9_register_email_conflict_only_witness :
    register_user usersOnlyDB ⟨"carol", "a@x", "pw"⟩ = (usersOnlyDB, Resp.err 409) ∧
    register_user usersOnlyDB ⟨"carol", "c@x", "pw"⟩
      = ({ usersOnlyDB with
            users := usersOnlyDB.users ++ [⟨3, "carol", "c@x", hash_password "pw"⟩],
            nextUserId := 4 },
         Resp.ok ⟨3, "carol", "c@x"⟩) :=
  have h1 := C9_register_email_conflict_only usersOnlyDB ⟨"carol", "a@x", "pw"⟩
  have h2 := C9_register_email_conflict_only usersOnlyDB ⟨"carol", "c@x", "pw"⟩
  ⟨h1.1 ⟨⟨1, "alice", "a@x", "h1"⟩, by decide, by decide⟩,
   h2.2.2 (by decide)⟩

/-- C10: the task-creation assignee check tests bare presence in the member
list and ignores the role — a member whose role is NOT_ACCESSABLE_MEMBER is
accepted as assignee and the task is created carrying that assignee, even
though the same role fails the OWNER-or-MEMBER gate and is turned away
(403) from the role-gated handlers. -/
theorem C10_restricted_member_assignable (db : DB) (uid pid bid a : Nat)
    (p : Project) (b : Board) (mrow : ProjectMember)
    (hp : getProject db pid = some p)
    (hfm : findMembership db pid uid = some mrow)
    (hrole : roleAllowed mrow.role = true)
    (hb : Repository.get_board_by_id db bid = some b)
    (hbp : b.project_id = pid)
    (hassignee : (⟨pid, a, MemberRole.NOT_ACCESSABLE_MEMBER⟩ : ProjectMember) ∈ db.members)
    (ha0 : a ≠ 0)
    (hfresh : ∀ t ∈ db.tasks, t.id ≠ db.nextTaskId)
    (hAonly : ∀ m ∈ db.members, m.project_id = pid → m.user_id = a →
        m.role = MemberRole.NOT_ACCESSABLE_MEMBER) :
    (∀ data : TaskCreate,
      create_new_task_on_board db uid pid bid
          ⟨data.title, data.description, data.status, data.priority,
           data.position, data.deadline, some a⟩
        = ({ db with
              tasks := db.tasks
                ++ [⟨db.nextTaskId, bid, data.title, none, data.status,
                     data.priority, data.position, data.deadline, some a⟩],
              nextTaskId := db.nextTaskId + 1 },
           Resp.ok ⟨db.nextTaskId, bid, data.title, none, data.status,
                    data.priority, data.position, data.deadline, some a⟩)) ∧
    roleAllowed MemberRole.NOT_ACCESSABLE_MEMBER = false ∧
    get_project_details db a pid = Resp.err 403 ∧
    (∀ bdata, create_new_board_in_project db a pid bdata = (db, Resp.err 403)) := by
  have hamem : (⟨pid, a, MemberRole.NOT_ACCESSABLE_MEMBER⟩ : ProjectMember)
      ∈ projectMembers db pid := by
    simp only [projectMembers, List.mem_filter, decide_eq_true_eq]
    exact ⟨hassignee, trivial⟩
  have hfma : ∃ m', findMembership db pid a = some m'
      ∧ m'.role = MemberRole.NOT_ACCESSABLE_MEMBER := by
    have hsome : ((projectMembers db pid).find? (fun m => decide (m.user_id = a))).isSome := by
      rw [List.find?_isSome]
      exact ⟨_, hamem, by simp⟩
    obtain ⟨m', hm'⟩ := Option.isSome_iff_exists.mp hsome
    refine ⟨m', hm', ?_⟩
    have hmem' : m' ∈ projectMembers db pid := List.mem_of_find?_eq_some hm'
    have hua : m'.user_id = a := by simpa using List.find?_some hm'
    simp only [projectMembers, List.mem_filter, decide_eq_true_eq] at hmem'
    exact hAonly m' hmem'.1 hmem'.2 hua
  obtain ⟨m', hm', hm'role⟩ := hfma
  have hm'allowed : roleAllowed m'.role = false := by
    rw [hm'role]
    rfl
  refine ⟨?_, rfl, ?_, ?_⟩
  · intro data
    have hmem : mrow ∈ projectMembers db pid := List.mem_of_find?_eq_some hfm
    have hu : mrow.user_id = uid := by simpa using List.find?_some hfm
    have h1 : ¬ (∀ x ∈ projectMembers db pid, ¬ x.user_id = uid) :=
      fun hall => hall mrow hmem hu
    have h2 : ¬ (∀ x ∈ projectMembers db pid, ¬ x.user_id = a) :=
      fun hall => hall _ hamem rfl
    have hn : db.tasks.find? (fun x => decide (x.id = db.nextTaskId)) = none := by
      rw [List.find?_eq_none]
      intro x hx
      simpa using hfresh x hx
    simp [create_new_task_on_board, hp, hfm, hrole, hb, hbp, truthy, ha0, h1, h2,
      Repository.create_task, Repository.get_task_by_id, List.find?_append, hn]
  · simp [get_project_details, hp, hm', hm'allowed]
  · intro bdata
    simp [create_new_board_in_project, hp, hm', hm'allowed]

/-- Witness for C10 at `restrictedDB`: the owner creates a task assigned to
the restricted user 2, who is themselves denied the project-details and
board-creation handlers. -/
theorem C10_restricted_member_assignable_witness :
    create_new_task_on_board restrictedDB 1 1 1
        ⟨"T2", none, TaskStatus.TODO, TaskPriority.MEDIUM, 0, none, some 2⟩
      = ({ restrictedDB with
            tasks := restrictedDB.tasks
              ++ [⟨2, 1, "T2", none, TaskStatus.TODO, TaskPriority.MEDIUM, 0, none, some 2⟩],
            nextTaskId := 3 },
         Resp.ok ⟨2, 1, "T2", none, TaskStatus.TODO, TaskPriority.MEDIUM, 0, none, some 2⟩) ∧
    get_project_details restrictedDB 2 1 = Resp.err 403 :=
  have hthm := C10_restricted_member_assignable restrictedDB 1 1 1 2
    ⟨1, "P", none, ProjectStatus.ACTIVE⟩ ⟨1, 1, "Backlog", 0⟩ ⟨1, 1, MemberRole.OWNER⟩
    (by decide) (by decide) (by decide) (by decide) (by decide) (by decide)
    (by decide) (by decide) (by decide)
  ⟨hthm.1 ⟨"T2", none, TaskStatus.TODO, TaskPriority.MEDIUM, 0, none, none⟩,
   hthm.2.2.1⟩

end TNP
